import Mathlib

/-!
# Supermorse-server: shallow embedding and verification

This file embeds the parts of the Supermorse server (a Mumble-based
Morse-training server with HF-propagation simulation) that the checked
claims are about, and proves or refutes each claim against the embedding.

Conventions of the embedding:
* `float` arithmetic of the C++ source is modelled over `ℚ` (exact
  arithmetic; all constants of the source are exactly representable).
* `QString` is modelled as `String` where its content is opaque, and as
  `List Char` where the source inspects characters.
* `QHash` members are modelled as functions into `Option`.
* Qt signal emissions are modelled as explicit event lists returned by the
  mutating operations.
-/

namespace Supermorse

/-- Qt `qBound(lo, x, hi) = qMax(lo, qMin(hi, x))`. -/
def qBound (lo x hi : ℚ) : ℚ := max lo (min x hi)

/-! ## HFBandSimulation: fading effects (`getFadingEffects`) -/

/-- The three by-reference outputs of `HFBandSimulation::getFadingEffects`. -/
structure FadingEffects where
  packetLoss : ℚ
  jitter : ℚ
  noiseFactor : ℚ
  deriving DecidableEq

/-- Embeds `HFBandSimulation::getFadingEffects` (HFBandSimulation.cpp):
each output is `1 - signalStrength` clamped by `qBound(0, ·, 1)`. -/
def getFadingEffects (signalStrength : ℚ) : FadingEffects :=
  { packetLoss := qBound 0 (1 - signalStrength) 1
    jitter := qBound 0 (1 - signalStrength) 1
    noiseFactor := qBound 0 (1 - signalStrength) 1 }

/-! ## HFBandSimulation: band recommendation (`recommendBand`) -/

/-- Embeds `HFBandSimulation::recommendBand`.  The source first computes
`muf = calculateMUF(distance)` (a transcendental function of the
ionospheric state); `muf` is taken here as a parameter, and the theorems
quantify over every possible value of it. -/
def recommendBand (distance muf : ℚ) : ℤ :=
  if distance < 500 then 20
  else if distance < 2000 then
    if 21 < muf then 15
    else if 14 < muf then 20
    else 40
  else
    if 28 < muf then 10
    else if 24 < muf then 12
    else if 21 < muf then 15
    else if 18 < muf then 17
    else if 14 < muf then 20
    else if 10 < muf then 30
    else if 7 < muf then 40
    else if 7/2 < muf then 80
    else 160

/-! ## HFBandSimulation: ionospheric state, pair cache and setters -/

/-- A pair-cache key: the two grid locators, in lookup order. -/
abbrev GridPair := String × String

/-- `QHash<QPair<QString,QString>, float> m_signalStrengthCache`, modelled
as a function into `Option`. -/
abbrev SignalCache := GridPair → Option ℚ

/-- The empty cache (no key present). -/
def emptyCache : SignalCache := fun _ => none

/-- `QHash::insert`: the key now maps to `v`; other keys are unchanged. -/
def cacheInsert (c : SignalCache) (k : GridPair) (v : ℚ) : SignalCache :=
  fun k' => if k' = k then some v else c k'

/-- The mutable members of `HFBandSimulation` the claims are about. -/
structure HFState where
  solarFluxIndex : ℤ
  kIndex : ℤ
  season : ℤ
  muf : ℚ
  cache : SignalCache

/-- Qt signals emitted by `HFBandSimulation`. -/
inductive HFEvent
  | propagationUpdated
  | mufChanged (muf : ℚ)
  | signalStrengthChanged (grid1 grid2 : String) (strength : ℚ)
  | externalDataUpdated (source : String) (success : Bool)
  deriving DecidableEq

/-- The member initialisers of the `HFBandSimulation` constructor
(SFI 120, K-index 3, season 0, MUF 0, empty cache). -/
def initialHFState : HFState :=
  { solarFluxIndex := 120, kIndex := 3, season := 0, muf := 0, cache := emptyCache }

/-- Embeds `HFBandSimulation::setSolarFluxIndex`: when the stored value
changes, store it, clear the cache and emit `propagationUpdated`. -/
def setSolarFluxIndex (st : HFState) (sfi : ℤ) : HFState × List HFEvent :=
  if st.solarFluxIndex ≠ sfi then
    ({ st with solarFluxIndex := sfi, cache := emptyCache }, [HFEvent.propagationUpdated])
  else (st, [])

/-- Embeds `HFBandSimulation::setKIndex`. -/
def setKIndex (st : HFState) (kIndex : ℤ) : HFState × List HFEvent :=
  if st.kIndex ≠ kIndex then
    ({ st with kIndex := kIndex, cache := emptyCache }, [HFEvent.propagationUpdated])
  else (st, [])

/-- Embeds `HFBandSimulation::setSeason`. -/
def setSeason (st : HFState) (season : ℤ) : HFState × List HFEvent :=
  if st.season ≠ season then
    ({ st with season := season, cache := emptyCache }, [HFEvent.propagationUpdated])
  else (st, [])

/-- Embeds `HFBandSimulation::calculateSignalStrength` (the caching logic).
The strength computed on lines 84–170 of the source depends on wall-clock
time and a random draw; its final (clamped) value is taken here as the
parameter `strength`, and likewise the `calculateMUF(distance)` value as
`muf`.  On a cache hit the cached value is returned unchanged; on a miss
the MUF member is updated (emitting `mufChanged` when it changes) and the
strength is inserted under both `(grid1, grid2)` and `(grid2, grid1)`. -/
def calculateSignalStrength (st : HFState) (grid1 grid2 : String) (muf strength : ℚ) :
    HFState × ℚ × List HFEvent :=
  match st.cache (grid1, grid2) with
  | some v => (st, v, [])
  | none =>
    let stMuf := { st with muf := muf }
    let mufEvents := if st.muf ≠ muf then [HFEvent.mufChanged muf] else []
    let cache1 := cacheInsert stMuf.cache (grid1, grid2) strength
    let cache2 := cacheInsert cache1 (grid2, grid1) strength
    ({ stMuf with cache := cache2 }, strength,
      mufEvents ++ [HFEvent.signalStrengthChanged grid1 grid2 strength])

/-- Embeds `HFBandSimulation::updatePropagation` (the cache-relevant tail):
clear the cache and emit `propagationUpdated`.  The preceding season /
external-data refresh is modelled by the caller composing `setSeason`. -/
def updatePropagation (st : HFState) : HFState × List HFEvent :=
  ({ st with cache := emptyCache }, [HFEvent.propagationUpdated])

/-- A `ServerUser`, reduced to the metadata map the propagation code reads. -/
structure ServerUser where
  metadata : String → Option String

/-- `user->qsMetadata.value("maidenheadgrid", "").toString()`. -/
def maidenheadGrid (u : ServerUser) : String :=
  (u.metadata "maidenheadgrid").getD ""

/-- Embeds `HFBandSimulation::calculatePropagation`: no propagation (0.0)
without grid locators on both sides, otherwise the pair signal strength. -/
def calculatePropagation (st : HFState) (u1 u2 : ServerUser) (muf strength : ℚ) :
    HFState × ℚ × List HFEvent :=
  let grid1 := maidenheadGrid u1
  let grid2 := maidenheadGrid u2
  if grid1 = "" ∨ grid2 = "" then (st, 0, [])
  else calculateSignalStrength st grid1 grid2 muf strength

/-- Embeds `HFBandSimulation::canCommunicate`: propagation at least 0.05. -/
def canCommunicate (st : HFState) (u1 u2 : ServerUser) (muf strength : ℚ) : Bool :=
  decide ((5 : ℚ)/100 ≤ (calculatePropagation st u1 u2 muf strength).2.1)

/-- Embeds `PropagationModule::getSignalQuality` /
`HFBandSimulation::getSignalQuality`: returns the propagation value. -/
def getSignalQuality (st : HFState) (u1 u2 : ServerUser) (muf strength : ℚ) : ℚ :=
  (calculatePropagation st u1 u2 muf strength).2.1

/-- What `PropagationModule::updateAudioRouting` decides to do with the
audio between two users. -/
inductive AudioAction
  | passThrough
  | block
  | degrade (packetLoss jitter noiseFactor : ℚ)
  deriving DecidableEq

/-- Embeds `PropagationModule::updateAudioRouting` (modules/
PropagationModule.cpp lines 265–330): effects are computed only when both
users carry a grid locator; a signal quality below 0.05 blocks the audio,
otherwise graduated degradation is applied; with a missing grid locator on
either side the audio is left untouched (pass-through). -/
def updateAudioRouting (st : HFState) (u1 u2 : ServerUser) (muf strength : ℚ) : AudioAction :=
  let signalQuality := getSignalQuality st u1 u2 muf strength
  let grid1 := maidenheadGrid u1
  let grid2 := maidenheadGrid u2
  if grid1 ≠ "" ∧ grid2 ≠ "" then
    let fx := getFadingEffects signalQuality
    if signalQuality < 5/100 then AudioAction.block
    else AudioAction.degrade fx.packetLoss fx.jitter fx.noiseFactor
  else AudioAction.passThrough

/-- The states of `HFBandSimulation` reachable from construction through
the cache-touching operations. -/
inductive HFReachable : HFState → Prop
  | init : HFReachable initialHFState
  | setSFI (st : HFState) (sfi : ℤ) : HFReachable st → HFReachable (setSolarFluxIndex st sfi).1
  | setK (st : HFState) (k : ℤ) : HFReachable st → HFReachable (setKIndex st k).1
  | setSeas (st : HFState) (s : ℤ) : HFReachable st → HFReachable (setSeason st s).1
  | updateProp (st : HFState) : HFReachable st → HFReachable (updatePropagation st).1
  | calcSignal (st : HFState) (g1 g2 : String) (muf strength : ℚ) :
      HFReachable st → HFReachable (calculateSignalStrength st g1 g2 muf strength).1
  | calcProp (st : HFState) (u1 u2 : ServerUser) (muf strength : ℚ) :
      HFReachable st → HFReachable (calculatePropagation st u1 u2 muf strength).1

/-- The pair cache answers lookups symmetrically. -/
def cacheSymmetric (c : SignalCache) : Prop :=
  ∀ a b : String, c (a, b) = c (b, a)

/-- A user carrying no metadata at all (hence no grid locator). -/
def bareUser : ServerUser := { metadata := fun _ => none }

/-! ## VolumeAdjustment (src/murmur/VolumeAdjustment.cpp) -/

/-- Users and channels are identified by opaque ids (pointers in the
source). -/
abbrev UserId := ℕ

/-- Channel identifier. -/
abbrev ChannelId := ℕ

/-- `VolumeAdjustment::AdjustmentType`. -/
inductive AdjustmentType
  | Normal
  | Multiplicative
  | Logarithmic
  | UserSpecific
  deriving DecidableEq

/-- `MIN_ADJUSTMENT_FACTOR` (VolumeAdjustment.cpp line 15). -/
def MIN_ADJUSTMENT_FACTOR : ℚ := 0

/-- `MAX_ADJUSTMENT_FACTOR` (VolumeAdjustment.cpp line 16). -/
def MAX_ADJUSTMENT_FACTOR : ℚ := 10

/-- `DEFAULT_ADJUSTMENT_FACTOR` (VolumeAdjustment.cpp line 17). -/
def DEFAULT_ADJUSTMENT_FACTOR : ℚ := 1

/-- The state of a `VolumeAdjustment`: its type, the default factor, and
the per-user factor map `m_factors`. -/
structure VolumeAdjustment where
  type : AdjustmentType
  defaultFactor : ℚ
  factors : UserId → Option ℚ

/-- The `VolumeAdjustment(AdjustmentType)` constructor: default factor 1,
empty per-user map.  The declared default argument is `Normal`. -/
def mkVolumeAdjustment (type : AdjustmentType := AdjustmentType.Normal) : VolumeAdjustment :=
  { type := type, defaultFactor := DEFAULT_ADJUSTMENT_FACTOR, factors := fun _ => none }

/-- `VolumeAdjustment::setType`. -/
def VolumeAdjustment.setType (va : VolumeAdjustment) (t : AdjustmentType) : VolumeAdjustment :=
  { va with type := t }

/-- `VolumeAdjustment::setAdjustmentFactor`: a null user sets the default
factor, a non-null user the per-user factor; both are clamped by
`qBound(MIN_ADJUSTMENT_FACTOR, factor, MAX_ADJUSTMENT_FACTOR)`. -/
def VolumeAdjustment.setAdjustmentFactor (va : VolumeAdjustment) (user : Option UserId)
    (factor : ℚ) : VolumeAdjustment :=
  match user with
  | none =>
    { va with defaultFactor := qBound MIN_ADJUSTMENT_FACTOR factor MAX_ADJUSTMENT_FACTOR }
  | some u =>
    { va with factors := fun u' =>
        if u' = u then some (qBound MIN_ADJUSTMENT_FACTOR factor MAX_ADJUSTMENT_FACTOR)
        else va.factors u' }

/-- `VolumeAdjustment::getAdjustmentFactor`: the per-user factor when the
user is non-null and present in the map, the default factor otherwise. -/
def VolumeAdjustment.getAdjustmentFactor (va : VolumeAdjustment) (user : Option UserId) : ℚ :=
  match user with
  | none => va.defaultFactor
  | some u => (va.factors u).getD va.defaultFactor

/-- The mutating operations of `VolumeAdjustment`. -/
inductive VAOp
  | setType (t : AdjustmentType)
  | setFactor (user : Option UserId) (factor : ℚ)

/-- Run one `VolumeAdjustment` operation. -/
def applyVAOp (va : VolumeAdjustment) : VAOp → VolumeAdjustment
  | VAOp.setType t => va.setType t
  | VAOp.setFactor user factor => va.setAdjustmentFactor user factor

/-- Every factor stored in a `VolumeAdjustment` lies in `[0, 10]`. -/
def vaFactorsInRange (va : VolumeAdjustment) : Prop :=
  (0 ≤ va.defaultFactor ∧ va.defaultFactor ≤ 10) ∧
    ∀ u f, va.factors u = some f → 0 ≤ f ∧ f ≤ 10

/-! ## ChannelListenerManager (part_001 / ChannelListenerManager.cpp) -/

/-- `QSet::insert` on a set modelled as a duplicate-free list. -/
def qsetInsert {α : Type} [DecidableEq α] (l : List α) (x : α) : List α :=
  if x ∈ l then l else x :: l

/-- The three hash members of `ChannelListenerManager`:
`m_channelListeners`, `m_userListenedChannels`,
`m_listenerVolumeAdjustments`. -/
structure CLMState where
  channelListeners : ChannelId → Option (List UserId)
  userListenedChannels : UserId → Option (List ChannelId)
  listenerVolumeAdjustments : UserId × ChannelId → Option VolumeAdjustment

/-- A freshly constructed `ChannelListenerManager`. -/
def emptyCLM : CLMState :=
  { channelListeners := fun _ => none
    userListenedChannels := fun _ => none
    listenerVolumeAdjustments := fun _ => none }

/-- Embeds `ChannelListenerManager::addListener`: insert the user into the
channel's listener set, the channel into the user's listened set, and
initialise the volume adjustment for the pair if absent
(`operator[]` default-constructs an absent `QSet`). -/
def addListener (s : CLMState) (u : UserId) (c : ChannelId) : CLMState :=
  { channelListeners := fun c' =>
      if c' = c then some (qsetInsert ((s.channelListeners c).getD []) u)
      else s.channelListeners c'
    userListenedChannels := fun u' =>
      if u' = u then some (qsetInsert ((s.userListenedChannels u).getD []) c)
      else s.userListenedChannels u'
    listenerVolumeAdjustments := fun k =>
      if k = (u, c) then
        some ((s.listenerVolumeAdjustments (u, c)).getD (mkVolumeAdjustment))
      else s.listenerVolumeAdjustments k }

/-- Embeds `ChannelListenerManager::getListenerVolumeAdjustment`:
`m_listenerVolumeAdjustments.value(key, VolumeAdjustment())`. -/
def getListenerVolumeAdjustment (s : CLMState) (u : UserId) (c : ChannelId) : VolumeAdjustment :=
  (s.listenerVolumeAdjustments (u, c)).getD (mkVolumeAdjustment)

/-- Embeds `ChannelListenerManager::disableListener`: read the pair's
adjustment (default when absent), set its type to `Multiplicative`, set
the factor for the user to 0, and store it back.  The listener indices
are not touched. -/
def disableListener (s : CLMState) (u : UserId) (c : ChannelId) : CLMState :=
  let adjustment :=
    ((s.listenerVolumeAdjustments (u, c)).getD (mkVolumeAdjustment)).setType
        AdjustmentType.Multiplicative
      |>.setAdjustmentFactor (some u) 0
  { s with listenerVolumeAdjustments := fun k =>
      if k = (u, c) then some adjustment else s.listenerVolumeAdjustments k }

/-- Embeds `ChannelListenerManager::isListening`: the channel has a
listener-set entry and it contains the user. -/
def isListening (s : CLMState) (u : UserId) (c : ChannelId) : Bool :=
  match s.channelListeners c with
  | none => false
  | some listeners => decide (u ∈ listeners)

/-! ## HFBandSimulation: grid locators and distances -/

/-- `static_cast<int>` applied to a float value: truncation toward zero. -/
def cppTrunc (q : ℚ) : ℤ := if 0 ≤ q then ⌊q⌋ else -⌊-q⌋

/-- The float constant `PI` of HFBandSimulation.cpp. -/
def floatPI : ℚ := 3.14159265358979323846

/-- The loop `while (longitude < -180.0f) longitude += 360.0f;` of
`coordinatesToGrid`. -/
def wrapLonUp (lon : ℚ) : ℚ :=
  if h : lon < -180 then wrapLonUp (lon + 360) else lon
termination_by (⌈-180 - lon⌉).toNat
decreasing_by
  have h1 : (0 : ℚ) < -180 - lon := by linarith
  have h2 : (0 : ℤ) < ⌈(-180 : ℚ) - lon⌉ := Int.ceil_pos.mpr h1
  have h3 : ⌈(-180 : ℚ) - (lon + 360)⌉ = ⌈(-180 : ℚ) - lon⌉ - 360 := by
    have h4 : (-180 : ℚ) - (lon + 360) = (-180 - lon) + ((-360 : ℤ) : ℚ) := by push_cast; ring
    rw [h4, Int.ceil_add_int]; ring
  simp only [h3]
  omega

/-- The loop `while (longitude > 180.0f) longitude -= 360.0f;` of
`coordinatesToGrid`. -/
def wrapLonDown (lon : ℚ) : ℚ :=
  if h : 180 < lon then wrapLonDown (lon - 360) else lon
termination_by (⌈lon - 180⌉).toNat
decreasing_by
  have h1 : (0 : ℚ) < lon - 180 := by linarith
  have h2 : (0 : ℤ) < ⌈lon - (180 : ℚ)⌉ := Int.ceil_pos.mpr h1
  have h3 : ⌈(lon - 360) - (180 : ℚ)⌉ = ⌈lon - (180 : ℚ)⌉ - 360 := by
    have h4 : (lon - 360) - (180 : ℚ) = (lon - 180) + ((-360 : ℤ) : ℚ) := by push_cast; ring
    rw [h4, Int.ceil_add_int]; ring
  simp only [h3]
  omega

/-- Embeds `HFBandSimulation::coordinatesToGrid`: normalise the longitude
into [-180, 180], clamp the latitude, then derive field, square and (for
precision >= 6) subsquare characters by truncating divisions. -/
def coordinatesToGrid (latitude longitude : ℚ) (precision : ℤ) : String :=
  let longitude := wrapLonDown (wrapLonUp longitude)
  let latitude := qBound (-90) latitude 90
  let longitudeField := cppTrunc ((longitude + 180) / 20)
  let latitudeField := cppTrunc ((latitude + 90) / 10)
  let longitudeSquare := cppTrunc (((longitude + 180) - longitudeField * 20) / 2)
  let latitudeSquare := cppTrunc ((latitude + 90) - latitudeField * 10)
  let longitudeSubsquare :=
    cppTrunc (((longitude + 180) - longitudeField * 20 - longitudeSquare * 2) * 12)
  let latitudeSubsquare :=
    cppTrunc (((latitude + 90) - latitudeField * 10 - latitudeSquare) * 24)
  let base : List Char :=
    [Char.ofNat ('A'.toNat + longitudeField.toNat), Char.ofNat ('A'.toNat + latitudeField.toNat),
     Char.ofNat ('0'.toNat + longitudeSquare.toNat), Char.ofNat ('0'.toNat + latitudeSquare.toNat)]
  let full : List Char :=
    if 6 ≤ precision then
      base ++ [Char.ofNat ('a'.toNat + longitudeSubsquare.toNat),
               Char.ofNat ('a'.toNat + latitudeSubsquare.toNat)]
    else base
  String.mk full

/-- Embeds `HFBandSimulation::gridToCoordinates` (returns the by-reference
pair `(latitude, longitude)`): grids shorter than 4 characters decode to
(0, 0); a 6-character grid additionally adds subsquare offsets; finally
the fixed offsets `longitude += 1.0; latitude += 0.5` are added. -/
def gridToCoordinates (grid : String) : ℚ × ℚ :=
  match grid.data with
  | c0 :: c1 :: c2 :: c3 :: rest =>
    let longitudeField : ℤ := (c0.toUpper.toNat : ℤ) - ('A'.toNat : ℤ)
    let latitudeField : ℤ := (c1.toUpper.toNat : ℤ) - ('A'.toNat : ℤ)
    let longitudeSquare : ℤ := (c2.toNat : ℤ) - ('0'.toNat : ℤ)
    let latitudeSquare : ℤ := (c3.toNat : ℤ) - ('0'.toNat : ℤ)
    let longitude : ℚ := (longitudeField : ℚ) * 20 + (longitudeSquare : ℚ) * 2 - 180
    let latitude : ℚ := (latitudeField : ℚ) * 10 + (latitudeSquare : ℚ) - 90
    let sub : ℚ × ℚ :=
      match rest with
      | c4 :: c5 :: _ =>
        let longitudeSubsquare : ℤ := (c4.toLower.toNat : ℤ) - ('a'.toNat : ℤ)
        let latitudeSubsquare : ℤ := (c5.toLower.toNat : ℤ) - ('a'.toNat : ℤ)
        (latitude + (latitudeSubsquare : ℚ) / 24, longitude + (longitudeSubsquare : ℚ) * 2 / 24)
      | _ => (latitude, longitude)
    (sub.1 + 1/2, sub.2 + 1)
  | _ => (0, 0)

/-- The transcendental float functions used by the propagation code,
abstracted together with the algebraic facts the proofs rely on. -/
structure TrigOracle where
  sin : ℚ → ℚ
  cos : ℚ → ℚ
  atan : ℚ → ℚ
  atan2 : ℚ → ℚ → ℚ
  sqrt : ℚ → ℚ
  sin_zero : sin 0 = 0
  sqrt_zero : sqrt 0 = 0
  atan2_zero_left : ∀ x : ℚ, atan2 0 x = 0

/-- Embeds `HFBandSimulation::calculateDistance`: decode both grids,
convert to radians, and apply the Haversine formula with Earth radius
6371 km. -/
def calculateDistance (T : TrigOracle) (grid1 grid2 : String) : ℚ :=
  let lat1 := (gridToCoordinates grid1).1 * floatPI / 180
  let lon1 := (gridToCoordinates grid1).2 * floatPI / 180
  let lat2 := (gridToCoordinates grid2).1 * floatPI / 180
  let lon2 := (gridToCoordinates grid2).2 * floatPI / 180
  let dlon := lon2 - lon1
  let dlat := lat2 - lat1
  let a := T.sin (dlat/2) * T.sin (dlat/2) +
    T.cos lat1 * T.cos lat2 * T.sin (dlon/2) * T.sin (dlon/2)
  let c := 2 * T.atan2 (T.sqrt a) (T.sqrt (1 - a))
  6371 * c

/-! ## HFBandSimulation: critical frequency, F-layer height and MUF -/

/-- Embeds `HFBandSimulation::calculateCriticalFrequency`. -/
def calculateCriticalFrequency (sfi kIndex season : ℤ) : ℚ :=
  let foF2 : ℚ := 5
  let solarFactor : ℚ := 1 + ((sfi : ℚ) - 100) / 100
  let geomagneticFactor : ℚ := 1 - ((kIndex : ℚ) / 9) * (1/2)
  let seasonFactor : ℚ :=
    if season = 0 then 4/5 else if season = 1 then 1
    else if season = 2 then 6/5 else if season = 3 then 1 else 1
  foF2 * (solarFactor * geomagneticFactor * seasonFactor)

/-- Embeds `HFBandSimulation::calculateFLayerHeight`. -/
def calculateFLayerHeight (sfi kIndex season : ℤ) : ℚ :=
  let height : ℚ := 300
  let solarFactor : ℚ := 1 + ((sfi : ℚ) - 100) / 200
  let geomagneticFactor : ℚ := 1 + ((kIndex : ℚ) / 9) * (1/5)
  let seasonFactor : ℚ :=
    if season = 0 then 11/10 else if season = 1 then 1
    else if season = 2 then 9/10 else if season = 3 then 1 else 1
  height * (solarFactor * geomagneticFactor * seasonFactor)

/-- `maxDistance = 2.0f * sqrt(fLayerHeight * 2.0f * 6371.0f)` in
`calculateMUF`. -/
def mufMaxDistance (T : TrigOracle) (fLayerHeight : ℚ) : ℚ :=
  2 * T.sqrt (fLayerHeight * 2 * 6371)

/-- `hops = static_cast<int>(std::ceil(distance / maxDistance))` in
`calculateMUF` (for the nonnegative values that arise, the int cast of a
float `ceil` is the ceiling). -/
def mufHops (distance maxDistance : ℚ) : ℤ := ⌈distance / maxDistance⌉

/-- The divisor `2.0f * hops` of the take-off-angle expression
`distance / (2.0f * hops)` in `calculateMUF`. -/
def mufTakeoffDivisor (distance maxDistance : ℚ) : ℚ :=
  2 * (mufHops distance maxDistance : ℚ)

/-- Embeds `HFBandSimulation::calculateMUF` over a trig oracle. -/
def calculateMUF (T : TrigOracle) (sfi kIndex season : ℤ) (distance : ℚ) : ℚ :=
  let foF2 := calculateCriticalFrequency sfi kIndex season
  let fLayerHeight := calculateFLayerHeight sfi kIndex season
  let maxDistance := mufMaxDistance T fLayerHeight
  let hops := mufHops distance maxDistance
  let takeoffAngle := T.atan (fLayerHeight / (distance / (2 * (hops : ℚ)))) * 180 / floatPI
  let secant := 1 / T.cos (takeoffAngle * floatPI / 180)
  foF2 * secant

/-! ## UserStatisticsModule (part_006 / UserStatisticsModule.cpp) -/

/-- The whitespace characters `QString::trimmed` strips. -/
def isQtSpace (c : Char) : Bool :=
  c = ' ' || c = '\t' || c = '\n' || c = '\r'

/-- `QString::split(sep)`, keeping empty parts. -/
def splitOnChar (sep : Char) : List Char → List (List Char)
  | [] => [[]]
  | c :: rest =>
    match splitOnChar sep rest with
    | [] => [[]]
    | h :: t => if c = sep then [] :: h :: t else (c :: h) :: t

/-- `QString::split(sep, Qt::SkipEmptyParts)`. -/
def splitSkipEmpty (sep : Char) (l : List Char) : List (List Char) :=
  (splitOnChar sep l).filter (fun p => !p.isEmpty)

/-- `QString::trimmed`. -/
def trimChars (l : List Char) : List Char :=
  ((l.dropWhile isQtSpace).reverse.dropWhile isQtSpace).reverse

/-- `QString::toLower`. -/
def toLowerChars (l : List Char) : List Char := l.map Char.toLower

/-- Whether `pat` occurs at the start of the text. -/
def startsWithChars : List Char → List Char → Bool
  | _, [] => true
  | [], _ :: _ => false
  | c :: cs, p :: ps => c = p && startsWithChars cs ps

/-- `QString::contains` (case-sensitive substring search). -/
def containsChars : List Char → List Char → Bool
  | [], pat => startsWithChars [] pat
  | c :: rest, pat => startsWithChars (c :: rest) pat || containsChars rest pat

/-- The five header tokens `validateStatsFile` requires (lines 279–283). -/
def requiredHeaderTokens : List (List Char) :=
  ["username".data, "characters learned".data, "time per character".data,
   "features unlocked".data, "emailadress".data]

/-- The per-data-line check of `validateStatsFile` (lines 291–314): at
least 5 comma-separated fields; and when the trimmed characters-learned
field is nonempty, its whitespace-token count must equal that of the
time-per-character field. -/
def validStatsRow (line : List Char) : Bool :=
  let fields := splitOnChar ',' line
  if fields.length < 5 then false
  else
    let charactersLearned := trimChars (fields.getD 1 [])
    let timePerCharacter := trimChars (fields.getD 2 [])
    if charactersLearned.isEmpty then true
    else (splitSkipEmpty ' ' charactersLearned).length ==
      (splitSkipEmpty ' ' timePerCharacter).length

/-- Embeds `UserStatisticsModule::validateStatsFile`: split into nonempty
lines; reject the empty file; require every header token
(case-insensitively); check every data line with `validStatsRow`. -/
def validateStatsFile (fileData : List Char) : Bool :=
  match splitSkipEmpty '\n' fileData with
  | [] => false
  | header :: rest =>
    if requiredHeaderTokens.all (fun tok => containsChars (toLowerChars header) tok) then
      rest.all validStatsRow
    else false

/-- The `while (fields.size() < 5) fields.append("")` loop of
`processUserStatsFile`. -/
def padFields (fields : List (List Char)) : List (List Char) :=
  fields ++ List.replicate (5 - fields.length) []

/-- The two loops adjusting the time tokens to the character count
(append "0" while short, remove the last while long). -/
def adjustTimes (times : List (List Char)) (n : Nat) : List (List Char) :=
  if times.length < n then times ++ List.replicate (n - times.length) ['0']
  else times.take n

/-- `QStringList::join(sep)`. -/
def joinWith (sep : Char) : List (List Char) → List Char
  | [] => []
  | [x] => x
  | x :: y :: rest => x ++ sep :: joinWith sep (y :: rest)

/-- The per-data-line normalisation of `processUserStatsFile`
(lines 140–174). -/
def formatStatsLine (line : List Char) : List Char :=
  let fields := padFields (splitOnChar ',' line)
  let charactersLearned := trimChars (fields.getD 1 [])
  let timePerCharacter := trimChars (fields.getD 2 [])
  let fields :=
    if charactersLearned.isEmpty then fields
    else
      let characters := splitSkipEmpty ' ' charactersLearned
      let times := adjustTimes (splitSkipEmpty ' ' timePerCharacter) characters.length
      (fields.set 1 (joinWith ' ' characters)).set 2 (joinWith ' ' times)
  joinWith ',' fields

/-- Embeds `UserStatisticsModule::processUserStatsFile` (its pure core):
a file failing `validateStatsFile` is rejected with nothing written
(`none`); an accepted file is normalised line by line and its formatted
content written (`some`).  The directory/IO plumbing is abstracted. -/
def processUserStatsFile (fileData : List Char) : Option (List Char) :=
  if validateStatsFile fileData then
    match splitSkipEmpty '\n' fileData with
    | [] => none
    | header :: rest => some (joinWith '\n' (header :: rest.map formatStatsLine))
  else none

/-- Line `i` of a stats file (0 is the header). -/
def statLine (fileData : List Char) (i : Nat) : List Char :=
  (splitSkipEmpty '\n' fileData).getD i []

/-- Field `j` of line `i` of a stats file. -/
def statField (fileData : List Char) (i j : Nat) : List Char :=
  (splitOnChar ',' (statLine fileData i)).getD j []

/-- Whitespace-token count of a trimmed field of a stats file. -/
def statFieldTokens (fileData : List Char) (i j : Nat) : Nat :=
  (splitSkipEmpty ' ' (trimChars (statField fileData i j))).length

/-- A stats file whose data row has an empty characters-learned field but
one time-per-character token. -/
def mismatchedStatsFile : List Char :=
  ("username, characters learned, time per character, features unlocked, emailadress\nalice,, 3 ,x,a@b").data

/-- A concrete inhabitant of the trig oracle. -/
def trivialTrig : TrigOracle :=
  { sin := fun _ => 0
    cos := fun _ => 1
    atan := fun _ => 0
    atan2 := fun _ _ => 0
    sqrt := fun _ => 0
    sin_zero := rfl
    sqrt_zero := rfl
    atan2_zero_left := fun _ => rfl }

end Supermorse

namespace Supermorse

/-- C2 (counterexample): at signal strength `0` the code's packet-loss output
is `1`, which exceeds the `0.95` cap the claim asserts. -/
theorem c2_packetLoss_exceeds_cap :
    (getFadingEffects 0).packetLoss = 1 ∧ ¬((getFadingEffects 0).packetLoss ≤ 19/20) := by
  constructor <;> norm_num [getFadingEffects, qBound]

/-- C2 (amended): for every signal strength `s ∈ [0,1]`, the fading model
returns packet loss, jitter and noise factor all equal to `1 - s`,
clamped into `[0, 1]` (not capped at `0.95`). -/
theorem c2_fading_is_one_minus_s (s : ℚ) (h0 : 0 ≤ s) (h1 : s ≤ 1) :
    getFadingEffects s = ⟨1 - s, 1 - s, 1 - s⟩ ∧
      0 ≤ (getFadingEffects s).packetLoss ∧ (getFadingEffects s).packetLoss ≤ 1 := by
  have hle : 1 - s ≤ 1 := by linarith
  have hge : 0 ≤ 1 - s := by linarith
  constructor
  · simp [getFadingEffects, qBound, min_eq_left hle, max_eq_right hge]
  · constructor <;> simp [getFadingEffects, qBound, min_eq_left hle, max_eq_right hge] <;> linarith

/-- C2 (witness for the amended theorem at `s = 1/2`). -/
theorem c2_fading_witness :
    getFadingEffects (1/2) = ⟨1/2, 1/2, 1/2⟩ ∧
      0 ≤ (getFadingEffects (1/2)).packetLoss ∧ (getFadingEffects (1/2)).packetLoss ≤ 1 := by
  have h := c2_fading_is_one_minus_s (1/2) (by norm_num) (by norm_num)
  exact ⟨by rw [h.1]; norm_num, h.2⟩

/-- C4: `recommendBand` returns `20` below 500 km regardless of MUF; between
500 and 2000 km it chooses by MUF thresholds 21 and 14; at and beyond
2000 km it steps down the fixed band ladder at the MUF thresholds
28, 24, 21, 18, 14, 10, 7, 3.5; and the result is always a member of
`{10, 12, 15, 17, 20, 30, 40, 80, 160}`. -/
theorem c4_recommendBand_ladder (d muf : ℚ) :
    recommendBand d muf ∈ ([10, 12, 15, 17, 20, 30, 40, 80, 160] : List ℤ) ∧
    (d < 500 → recommendBand d muf = 20) ∧
    (500 ≤ d → d < 2000 →
      recommendBand d muf = if 21 < muf then 15 else if 14 < muf then 20 else 40) ∧
    (2000 ≤ d →
      recommendBand d muf =
        if 28 < muf then 10 else if 24 < muf then 12 else if 21 < muf then 15
        else if 18 < muf then 17 else if 14 < muf then 20 else if 10 < muf then 30
        else if 7 < muf then 40 else if 7/2 < muf then 80 else 160) := by
  refine ⟨?_, ?_, ?_, ?_⟩
  · unfold recommendBand
    split_ifs <;> decide
  · intro h
    unfold recommendBand
    rw [if_pos h]
  · intro h1 h2
    unfold recommendBand
    rw [if_neg (by linarith), if_pos h2]
  · intro h
    unfold recommendBand
    rw [if_neg (by linarith), if_neg (by linarith)]

/-- C4 (witness at distance 400 km, MUF 30): the short-range branch yields
the 20 m band. -/
theorem c4_recommendBand_witness : recommendBand 400 30 = 20 :=
  (c4_recommendBand_ladder 400 30).2.1 (by norm_num)

/-- C1 (counterexample): for two users with no grid locator,
`canCommunicate` returns `false` (propagation is 0.0, below the 0.05
threshold), not `true` as the claim states. -/
theorem c1_canCommunicate_false_without_grids :
    canCommunicate initialHFState bareUser bareUser 0 0 = false := by
  have hprop : calculatePropagation initialHFState bareUser bareUser 0 0 =
      (initialHFState, 0, []) := by
    simp [calculatePropagation, maidenheadGrid, bareUser]
  simp only [canCommunicate, hprop]
  norm_num

/-- C1 (amended): for every pair of users where neither declares a grid
locator, the voice path passes through with the identity effect —
`updateAudioRouting` applies no blocking or degradation — because HF
simulation applies only when both parties declare locations; however
`calculatePropagation` returns 0.0 for such a pair (leaving the state
untouched), so `canCommunicate` returns `false`, not `true`. -/
theorem c1_passthrough_without_grids (st : HFState) (u1 u2 : ServerUser) (muf strength : ℚ)
    (h1 : maidenheadGrid u1 = "") (_h2 : maidenheadGrid u2 = "") :
    updateAudioRouting st u1 u2 muf strength = AudioAction.passThrough ∧
      calculatePropagation st u1 u2 muf strength = (st, 0, []) ∧
      canCommunicate st u1 u2 muf strength = false := by
  have hprop : calculatePropagation st u1 u2 muf strength = (st, 0, []) := by
    simp [calculatePropagation, h1]
  refine ⟨?_, hprop, ?_⟩
  · simp [updateAudioRouting, h1]
  · simp only [canCommunicate, hprop]
    norm_num

/-- C1 (witness for the amended theorem, on two metadata-free users). -/
theorem c1_passthrough_witness :
    updateAudioRouting initialHFState bareUser bareUser 0 0 = AudioAction.passThrough ∧
      calculatePropagation initialHFState bareUser bareUser 0 0 = (initialHFState, 0, []) ∧
      canCommunicate initialHFState bareUser bareUser 0 0 = false :=
  c1_passthrough_without_grids initialHFState bareUser bareUser 0 0 rfl rfl

/-- C5: whenever a setter for the solar-flux index, K-index or season
actually changes the stored value, the pair signal-strength cache is empty
afterwards and a `propagationUpdated` notification is emitted. -/
theorem c5_setters_clear_cache (st : HFState) (sfi k season : ℤ)
    (h1 : st.solarFluxIndex ≠ sfi) (h2 : st.kIndex ≠ k) (h3 : st.season ≠ season) :
    ((setSolarFluxIndex st sfi).1.cache = emptyCache ∧
      HFEvent.propagationUpdated ∈ (setSolarFluxIndex st sfi).2) ∧
    ((setKIndex st k).1.cache = emptyCache ∧
      HFEvent.propagationUpdated ∈ (setKIndex st k).2) ∧
    ((setSeason st season).1.cache = emptyCache ∧
      HFEvent.propagationUpdated ∈ (setSeason st season).2) := by
  refine ⟨⟨?_, ?_⟩, ⟨?_, ?_⟩, ⟨?_, ?_⟩⟩ <;>
    simp [setSolarFluxIndex, setKIndex, setSeason, h1, h2, h3]

/-- C5 (witness: from the constructor state, change SFI to 121, K to 4 and
season to 1). -/
theorem c5_setters_witness :
    ((setSolarFluxIndex initialHFState 121).1.cache = emptyCache ∧
      HFEvent.propagationUpdated ∈ (setSolarFluxIndex initialHFState 121).2) ∧
    ((setKIndex initialHFState 4).1.cache = emptyCache ∧
      HFEvent.propagationUpdated ∈ (setKIndex initialHFState 4).2) ∧
    ((setSeason initialHFState 1).1.cache = emptyCache ∧
      HFEvent.propagationUpdated ∈ (setSeason initialHFState 1).2) :=
  c5_setters_clear_cache initialHFState 121 4 1 (by decide) (by decide) (by decide)

/-- Inserting a strength under `(g1, g2)` and then under `(g2, g1)` with
the same value preserves cache symmetry. -/
theorem cacheInsert_pair_symmetric (c : SignalCache) (h : cacheSymmetric c)
    (g1 g2 : String) (v : ℚ) :
    cacheSymmetric (cacheInsert (cacheInsert c (g1, g2) v) (g2, g1) v) := by
  intro a b
  simp only [cacheInsert, Prod.mk.injEq]
  by_cases hag2 : a = g2 <;> by_cases hbg1 : b = g1 <;>
    by_cases hag1 : a = g1 <;> by_cases hbg2 : b = g2 <;>
      simp_all <;> exact h _ _

/-- `calculateSignalStrength` preserves cache symmetry: a cache hit leaves
the cache untouched, and a miss inserts the same value in both orders. -/
theorem calculateSignalStrength_symmetric (st : HFState) (g1 g2 : String) (muf strength : ℚ)
    (h : cacheSymmetric st.cache) :
    cacheSymmetric (calculateSignalStrength st g1 g2 muf strength).1.cache := by
  cases hc : st.cache (g1, g2) with
  | none =>
    simp only [calculateSignalStrength, hc]
    exact cacheInsert_pair_symmetric st.cache h g1 g2 strength
  | some v =>
    simpa only [calculateSignalStrength, hc] using h

/-- C6: at every reachable state of `HFBandSimulation`, the pair
signal-strength cache is symmetric: `lookup (a, b) = lookup (b, a)` for
all grid locators `a`, `b`. -/
theorem c6_cache_symmetric (st : HFState) (h : HFReachable st) : cacheSymmetric st.cache := by
  induction h with
  | init => intro a b; rfl
  | setSFI st sfi _ ih =>
    unfold setSolarFluxIndex
    split_ifs
    · intro a b; rfl
    · exact ih
  | setK st k _ ih =>
    unfold setKIndex
    split_ifs
    · intro a b; rfl
    · exact ih
  | setSeas st s _ ih =>
    unfold setSeason
    split_ifs
    · intro a b; rfl
    · exact ih
  | updateProp st _ _ =>
    intro a b; rfl
  | calcSignal st g1 g2 muf strength _ ih =>
    exact calculateSignalStrength_symmetric st g1 g2 muf strength ih
  | calcProp st u1 u2 muf strength _ ih =>
    simp only [calculatePropagation]
    split_ifs
    · exact ih
    · exact calculateSignalStrength_symmetric st _ _ muf strength ih

/-- C6 (witness: after one signal-strength computation from the
constructor state, the cached pair answers symmetrically). -/
theorem c6_cache_symmetric_witness :
    (calculateSignalStrength initialHFState "AA00" "BB11" 10 (1/2)).1.cache ("AA00", "BB11") =
      (calculateSignalStrength initialHFState "AA00" "BB11" 10 (1/2)).1.cache ("BB11", "AA00") :=
  c6_cache_symmetric _
    (HFReachable.calcSignal initialHFState "AA00" "BB11" 10 (1/2) HFReachable.init)
    "AA00" "BB11"

/-- The clamp used by `setAdjustmentFactor` lands in `[0, 10]`. -/
theorem qBound_factor_range (x : ℚ) :
    0 ≤ qBound MIN_ADJUSTMENT_FACTOR x MAX_ADJUSTMENT_FACTOR ∧
      qBound MIN_ADJUSTMENT_FACTOR x MAX_ADJUSTMENT_FACTOR ≤ 10 := by
  unfold qBound MIN_ADJUSTMENT_FACTOR MAX_ADJUSTMENT_FACTOR
  exact ⟨le_max_left _ _, max_le (by norm_num) (min_le_right _ _)⟩

/-- C9: after any sequence of `VolumeAdjustment` operations starting from
the constructor, the default factor and every stored per-user factor lie
in `[0, 10]`: `setAdjustmentFactor` clamps its argument and no other
operation stores a factor. -/
theorem c9_factors_in_range (t : AdjustmentType) (ops : List VAOp) :
    vaFactorsInRange (ops.foldl applyVAOp (mkVolumeAdjustment t)) := by
  have hstep : ∀ (va : VolumeAdjustment) (op : VAOp),
      vaFactorsInRange va → vaFactorsInRange (applyVAOp va op) := by
    intro va op hva
    cases op with
    | setType t => exact hva
    | setFactor user factor =>
      cases user with
      | none =>
        exact ⟨qBound_factor_range factor, hva.2⟩
      | some u =>
        refine ⟨hva.1, ?_⟩
        intro u' f hf
        simp only [VolumeAdjustment.setAdjustmentFactor, applyVAOp] at hf
        by_cases hu : u' = u
        · rw [if_pos hu] at hf
          obtain rfl : qBound MIN_ADJUSTMENT_FACTOR factor MAX_ADJUSTMENT_FACTOR = f :=
            Option.some.inj hf
          exact qBound_factor_range factor
        · rw [if_neg hu] at hf
          exact hva.2 u' f hf
  have hbase : vaFactorsInRange (mkVolumeAdjustment t) := by
    refine ⟨by norm_num [mkVolumeAdjustment, DEFAULT_ADJUSTMENT_FACTOR], ?_⟩
    intro u f hf
    simp [mkVolumeAdjustment] at hf
  have hfold : ∀ (l : List VAOp) (va : VolumeAdjustment),
      vaFactorsInRange va → vaFactorsInRange (l.foldl applyVAOp va) := by
    intro l
    induction l with
    | nil => intro va hva; exact hva
    | cons op rest ih => intro va hva; exact ih _ (hstep va op hva)
  exact hfold ops _ hbase

/-- C8: disabling an existing listener binding keeps the binding and the
two listener indices intact, and only changes the stored volume
adjustment for the pair, setting the factor for that user to 0 (factors
for other users, and all other pairs' adjustments, are unchanged). -/
theorem c8_disableListener_frame (s : CLMState) (u : UserId) (c : ChannelId)
    (h : isListening s u c = true) :
    isListening (disableListener s u c) u c = true ∧
    (disableListener s u c).channelListeners = s.channelListeners ∧
    (disableListener s u c).userListenedChannels = s.userListenedChannels ∧
    (getListenerVolumeAdjustment (disableListener s u c) u c).getAdjustmentFactor (some u) = 0 ∧
    (∀ (u' : UserId) (c' : ChannelId), (u', c') ≠ (u, c) →
      getListenerVolumeAdjustment (disableListener s u c) u' c' =
        getListenerVolumeAdjustment s u' c') ∧
    (∀ u'' : UserId, u'' ≠ u →
      (getListenerVolumeAdjustment (disableListener s u c) u c).getAdjustmentFactor (some u'') =
        (getListenerVolumeAdjustment s u c).getAdjustmentFactor (some u'')) := by
  refine ⟨h, rfl, rfl, ?_, ?_, ?_⟩
  · simp [disableListener, getListenerVolumeAdjustment, VolumeAdjustment.setAdjustmentFactor,
      VolumeAdjustment.setType, VolumeAdjustment.getAdjustmentFactor, qBound,
      MIN_ADJUSTMENT_FACTOR, MAX_ADJUSTMENT_FACTOR]
  · intro u' c' hne
    simp [disableListener, getListenerVolumeAdjustment, hne]
  · intro u'' hne
    simp [disableListener, getListenerVolumeAdjustment, VolumeAdjustment.setAdjustmentFactor,
      VolumeAdjustment.setType, VolumeAdjustment.getAdjustmentFactor, hne]

/-- C8 (witness: add listener 7 to channel 3, then disable it; the binding
survives with factor 0 for the user). -/
theorem c8_disableListener_witness :
    isListening (disableListener (addListener emptyCLM 7 3) 7 3) 7 3 = true ∧
    (getListenerVolumeAdjustment (disableListener (addListener emptyCLM 7 3) 7 3)
      7 3).getAdjustmentFactor (some 7) = 0 := by
  have h := c8_disableListener_frame (addListener emptyCLM 7 3) 7 3 (by decide)
  exact ⟨h.1, h.2.2.2.1⟩


/-- `wrapLonUp` is the identity at 0. -/
theorem wrapLonUp_zero : wrapLonUp 0 = 0 := by
  rw [wrapLonUp]
  norm_num

/-- `wrapLonDown` is the identity at 0. -/
theorem wrapLonDown_zero : wrapLonDown 0 = 0 := by
  rw [wrapLonDown]
  norm_num

/-- C3 (code bug, evaluated at the failing input): encoding latitude 0,
longitude 0 at precision 6 yields the grid `JJ00aa`, but decoding it
returns latitude 1/2 and longitude 1 — the centre of the 2 x 1 degree
square, not of the decoded subsquare — so the round-trip errors are 1/2
degree in latitude and 1 degree in longitude, far above the claimed
bounds 1/48 and 1/24. -/
theorem c3_roundtrip_exceeds_bounds :
    coordinatesToGrid 0 0 6 = "JJ00aa" ∧
    gridToCoordinates (coordinatesToGrid 0 0 6) = (1/2, 1) ∧
    ¬(|(gridToCoordinates (coordinatesToGrid 0 0 6)).1 - 0| ≤ 1/48 ∧
      |(gridToCoordinates (coordinatesToGrid 0 0 6)).2 - 0| ≤ 1/24) := by
  have hgrid : coordinatesToGrid 0 0 6 = "JJ00aa" := by
    norm_num [coordinatesToGrid, wrapLonUp_zero, wrapLonDown_zero, qBound, cppTrunc]
    decide
  have hJ : 'J'.toUpper.toNat = 74 := by decide
  have h0 : '0'.toNat = 48 := by decide
  have ha : 'a'.toLower.toNat = 97 := by decide
  have haa : 'a'.toNat = 97 := by decide
  have hA : 'A'.toNat = 65 := by decide
  have hdec : gridToCoordinates "JJ00aa" = (1/2, 1) := by
    norm_num [gridToCoordinates, hJ, h0, ha, haa, hA]
  refine ⟨hgrid, by rw [hgrid, hdec], ?_⟩
  rw [hgrid, hdec]
  intro hcl
  have h1 := hcl.1
  norm_num [abs_le] at h1

/-- C10: for every positive distance the hop count
`ceil(distance / maxDistance)` of `calculateMUF` is at least 1 (for the
positive single-hop range the square root produces), so the take-off
divisor `2 * hops` is nonzero and the take-off-angle expression is
well-defined; at distance 0 the hop count is 0 and the divisor is 0, and
distance 0 is reachable because `calculateDistance` of two identical grid
locators is 0. -/
theorem c10_muf_hops_positive (T : TrigOracle) (g : String) (d maxD : ℚ) :
    (0 < d → 0 < maxD → 1 ≤ mufHops d maxD ∧ mufTakeoffDivisor d maxD ≠ 0) ∧
    mufHops 0 maxD = 0 ∧ mufTakeoffDivisor 0 maxD = 0 ∧
    calculateDistance T g g = 0 := by
  refine ⟨?_, ?_, ?_, ?_⟩
  · intro hd hmax
    have hpos : 0 < d / maxD := div_pos hd hmax
    have h1 : 1 ≤ mufHops d maxD := Int.ceil_pos.mpr hpos
    refine ⟨h1, ?_⟩
    unfold mufTakeoffDivisor
    have h2 : (0 : ℚ) < 2 * (mufHops d maxD : ℚ) := by
      have : (1 : ℚ) ≤ (mufHops d maxD : ℚ) := by exact_mod_cast h1
      linarith
    exact ne_of_gt h2
  · simp [mufHops]
  · simp [mufTakeoffDivisor, mufHops]
  · simp [calculateDistance, sub_self, T.sin_zero, T.sqrt_zero, T.atan2_zero_left]

/-- C10 (witness: hop count 1 at distance 1000 km with single-hop range
4000 km, and zero Haversine distance between two copies of `JJ00aa`). -/
theorem c10_muf_hops_witness :
    (1 ≤ mufHops 1000 4000 ∧ mufTakeoffDivisor 1000 4000 ≠ 0) ∧
    mufHops 0 4000 = 0 ∧ mufTakeoffDivisor 0 4000 = 0 ∧
    calculateDistance trivialTrig "JJ00aa" "JJ00aa" = 0 := by
  have h := c10_muf_hops_positive trivialTrig "JJ00aa" 1000 4000
  exact ⟨h.1 (by norm_num) (by norm_num), h.2⟩


/-- One accepted data row satisfies the row conditions: at least five
fields, and matching token counts when the characters field is nonempty. -/
theorem validStatsRow_spec (line : List Char) (h : validStatsRow line = true) :
    5 ≤ (splitOnChar ',' line).length ∧
      ((trimChars ((splitOnChar ',' line).getD 1 [])).isEmpty = false →
        (splitSkipEmpty ' ' (trimChars ((splitOnChar ',' line).getD 1 []))).length =
          (splitSkipEmpty ' ' (trimChars ((splitOnChar ',' line).getD 2 []))).length) := by
  unfold validStatsRow at h
  simp only at h
  split_ifs at h with h5 hemp
  · exact ⟨by omega, fun hne => by rw [hemp] at hne; exact absurd hne (by simp)⟩
  · exact ⟨by omega, fun _ => by simpa using h⟩

/-- C7 (amended): a statistics file is accepted only if its header
contains all five required tokens case-insensitively and every data row
has at least five fields and — whenever its trimmed characters-learned
field is nonempty — equal whitespace-token counts in the
characters-learned and time-per-character fields; and a file failing
validation is rejected with nothing written. -/
theorem c7_validate_only_if (fileData : List Char) :
    (validateStatsFile fileData = true →
      splitSkipEmpty '\n' fileData ≠ [] ∧
      (∀ tok ∈ requiredHeaderTokens,
        containsChars (toLowerChars ((splitSkipEmpty '\n' fileData).headD [])) tok = true) ∧
      (∀ line ∈ (splitSkipEmpty '\n' fileData).tail,
        5 ≤ (splitOnChar ',' line).length ∧
          ((trimChars ((splitOnChar ',' line).getD 1 [])).isEmpty = false →
            (splitSkipEmpty ' ' (trimChars ((splitOnChar ',' line).getD 1 []))).length =
              (splitSkipEmpty ' ' (trimChars ((splitOnChar ',' line).getD 2 []))).length))) ∧
    (validateStatsFile fileData = false → processUserStatsFile fileData = none) := by
  constructor
  · intro hv
    unfold validateStatsFile at hv
    cases hl : splitSkipEmpty '\n' fileData with
    | nil => rw [hl] at hv; exact absurd hv (by simp)
    | cons header rest =>
      rw [hl] at hv
      replace hv :
          (if (requiredHeaderTokens.all fun tok => containsChars (toLowerChars header) tok) = true
            then rest.all validStatsRow else false) = true := hv
      split_ifs at hv with hhead
      · refine ⟨by simp, ?_, ?_⟩
        · intro tok htok
          simpa using List.all_eq_true.mp hhead tok htok
        · intro line hline
          exact validStatsRow_spec line (List.all_eq_true.mp hv line (by simpa using hline))
  · intro hv
    unfold processUserStatsFile
    rw [hv]
    simp

/-- C7 (witness for the amended theorem: a file without the required
header is rejected and nothing is written). -/
theorem c7_reject_witness : processUserStatsFile ("garbage".data) = none :=
  (c7_validate_only_if ("garbage".data)).2 (by decide)

/-- C7 (counterexample): a file whose data row has an empty
characters-learned field but one time-per-character token is accepted
(validation succeeds and content is written) although the two token
counts differ (0 vs 1). -/
theorem c7_accepts_mismatched_counts :
    validateStatsFile mismatchedStatsFile = true ∧
      statFieldTokens mismatchedStatsFile 1 1 = 0 ∧
      statFieldTokens mismatchedStatsFile 1 2 = 1 ∧
      processUserStatsFile mismatchedStatsFile ≠ none := by
  refine ⟨by decide, by decide, by decide, by decide⟩

end Supermorse
